import Mathlib

/-!
Verification of the multi-provider generation and evaluation engine
(backend/services): the job queue state machine (`jobs.py`), the
comparison engine (`comparison.py`), the hallucination detector
(`hallucination.py`) and the model registry with its provider adapters
(`model_registry.py`).

The Python source is shallowly embedded: Python `float` arithmetic is
modelled by exact rationals (`ℚ`), Python `int` by `Int`/`Nat`, Python
dicts by association lists with distinct keys, and fallible code by an
explicit outcome type.  Wall-clock readings (`time.time()`) are passed
in as explicit parameters.
-/

set_option autoImplicit false

/-- Truncating float-to-int conversion, Python `int(x)` (toward zero). -/
def pyInt (q : ℚ) : Int := if q < 0 then ⌈q⌉ else ⌊q⌋

/-- JSON-like values: the payloads stored in job results and compared by
`compute_json_diff`.  Python dicts are association lists (Python dict
keys are unique; see `JVal.wfFields`). -/
inductive JVal where
  | null
  | bool (b : Bool)
  | num (q : ℚ)
  | str (s : String)
  | arr (xs : List JVal)
  | obj (fields : List (String × JVal))

mutual

/-- Structural equality on JSON values, modelling Python `==` on the
payloads (identical structures always compare equal). -/
def JVal.beq : JVal → JVal → Bool
  | .null, .null => true
  | .bool a, .bool b => a == b
  | .num a, .num b => a == b
  | .str a, .str b => a == b
  | .arr a, .arr b => JVal.beqList a b
  | .obj a, .obj b => JVal.beqFields a b
  | _, _ => false

/-- Elementwise equality of JSON arrays (Python list `==`). -/
def JVal.beqList : List JVal → List JVal → Bool
  | [], [] => true
  | x :: xs, y :: ys => JVal.beq x y && JVal.beqList xs ys
  | _, _ => false

/-- Entrywise equality of JSON objects. -/
def JVal.beqFields : List (String × JVal) → List (String × JVal) → Bool
  | [], [] => true
  | (k1, v1) :: xs, (k2, v2) :: ys => k1 == k2 && JVal.beq v1 v2 && JVal.beqFields xs ys
  | _, _ => false

end

/-- Whether an object has an entry with the given key (`key in dict`). -/
def keysContain (o : List (String × JVal)) (k : String) : Bool :=
  o.any (fun p => p.1 == k)

/-- First value stored under a key (`dict[key]`; unique when keys are
distinct, as in a Python dict). -/
def lookupVal (o : List (String × JVal)) (k : String) : Option JVal :=
  o.lookup k

/-- Python `dict.update`: existing keys are overwritten in place, new
keys are appended in their own order. -/
def dictUpdate (old new : List (String × JVal)) : List (String × JVal) :=
  old.map (fun p => (p.1, (lookupVal new p.1).getD p.2)) ++
    new.filter (fun p => !keysContain old p.1)

namespace Jobs

/-- `JobStatus` enum of `jobs.py`. -/
inductive JobStatus where
  | pending
  | running
  | completed
  | failed
  | cancelled
deriving DecidableEq

/-- Terminal statuses of the job state machine. -/
def JobStatus.isTerminal : JobStatus → Bool
  | .completed | .failed | .cancelled => true
  | _ => false

/-- The `Job` dataclass.  Timestamps are rationals supplied by the
caller in place of `time.time()`. -/
structure Job where
  jobId : String
  taskType : String
  status : JobStatus
  createdAt : ℚ
  updatedAt : ℚ
  progress : Int
  totalItems : Int
  completedItems : Int
  result : Option (List (String × JVal)) := none
  error : Option String := none
  cancelled : Bool := false

/-- `JobQueue.create_job` applied to a fresh id: the initial job record. -/
def create_job (jobId taskType : String) (totalItems : Int) (now : ℚ) : Job :=
  { jobId := jobId, taskType := taskType, status := .pending, createdAt := now,
    updatedAt := now, progress := 0, totalItems := totalItems, completedItems := 0 }

/-- `JobQueue.update_job_progress` acting on the looked-up job (`none`
models an unknown id, on which the method returns without effect).
Python `int((completed_items / job.total_items) * 100)` is the exact
rational product truncated toward zero, and `if result:` is true for a
non-`None`, non-empty dict. -/
def update_job_progress (job? : Option Job) (completedItems : Int)
    (result : Option (List (String × JVal))) (now : ℚ) : Option Job :=
  match job? with
  | none => none
  | some job =>
    let job := { job with
      completedItems := completedItems,
      progress :=
        if job.totalItems > 0 then
          pyInt (((completedItems : ℚ) / (job.totalItems : ℚ)) * 100)
        else 0,
      updatedAt := now }
    let job :=
      match result with
      | some r =>
        if r.isEmpty then job
        else { job with result := some (dictUpdate (job.result.getD []) r) }
      | none => job
    let job :=
      if job.completedItems ≥ job.totalItems then { job with status := .completed }
      else job
    some job

/-- `JobQueue.start_job`. -/
def start_job (job? : Option Job) (now : ℚ) : Option Job :=
  match job? with
  | none => none
  | some job => some { job with status := .running, updatedAt := now }

/-- `JobQueue.complete_job`. -/
def complete_job (job? : Option Job) (result : List (String × JVal)) (now : ℚ) :
    Option Job :=
  match job? with
  | none => none
  | some job => some { job with
      status := .completed
      result := some result
      progress := 100
      completedItems := job.totalItems
      updatedAt := now }

/-- `JobQueue.fail_job`. -/
def fail_job (job? : Option Job) (error : String) (now : ℚ) : Option Job :=
  match job? with
  | none => none
  | some job => some { job with status := .failed, error := some error, updatedAt := now }

/-- `JobQueue.cancel_job`: returns the updated job map entry and the
boolean result. -/
def cancel_job (job? : Option Job) (now : ℚ) : Option Job × Bool :=
  match job? with
  | none => (none, false)
  | some job =>
    if job.status = .pending ∨ job.status = .running then
      (some { job with status := .cancelled, cancelled := true, updatedAt := now }, true)
    else (some job, false)

end Jobs

namespace Comparison

/-- Payload of a `modified` entry produced by `compute_json_diff`: a
nested diff for two dicts, old/new with lengths for two lists, and
old/new for everything else. -/
inductive ModEntry where
  | nested (added removed : List (String × JVal)) (modified : List (String × ModEntry))
      (unchanged : List (String × JVal))
  | changedList (old new : List JVal) (oldLength newLength : Nat)
  | changed (old new : JVal)

/-- Result of `compute_json_diff`. -/
structure DiffResult where
  added : List (String × JVal)
  removed : List (String × JVal)
  modified : List (String × ModEntry)
  unchanged : List (String × JVal)

/-- Keys of `obj2` absent from `obj1` with their values (`keys2 - keys1`). -/
def addedOf (o1 o2 : List (String × JVal)) : List (String × JVal) :=
  o2.filter (fun p => !keysContain o1 p.1)

/-- Keys of `obj1` absent from `obj2` with their values (`keys1 - keys2`). -/
def removedOf (o1 o2 : List (String × JVal)) : List (String × JVal) :=
  o1.filter (fun p => !keysContain o2 p.1)

mutual

/-- Classification of one common key of `compute_json_diff`: `none`
means unchanged, `some` carries the `modified` payload.  Two dicts
recurse; two lists compare elementwise; any other pair compares by
equality (a dict against a non-dict also lands here, as in Python). -/
def classify : JVal → JVal → Option ModEntry
  | .obj d1, .obj d2 =>
    let c := commonOf d1 d2
    let added := addedOf d1 d2
    let removed := removedOf d1 d2
    if added.isEmpty && removed.isEmpty && c.1.isEmpty then none
    else some (.nested added removed c.1 c.2)
  | .arr l1, .arr l2 =>
    if JVal.beqList l1 l2 then none
    else some (.changedList l1 l2 l1.length l2.length)
  | v1, v2 => if JVal.beq v1 v2 then none else some (.changed v1 v2)

/-- The `modified` and `unchanged` sections over the common keys
(`keys1 & keys2`), walking `obj1` in order. -/
def commonOf : List (String × JVal) → List (String × JVal) →
    List (String × ModEntry) × List (String × JVal)
  | [], _ => ([], [])
  | (k, v1) :: rest, o2 =>
    let tail := commonOf rest o2
    match lookupVal o2 k with
    | none => tail
    | some v2 =>
      match classify v1 v2 with
      | some m => ((k, m) :: tail.1, tail.2)
      | none => (tail.1, (k, v1) :: tail.2)

end

/-- `compute_json_diff` of `comparison.py` on two dict payloads. -/
def compute_json_diff (o1 o2 : List (String × JVal)) : DiffResult :=
  let c := commonOf o1 o2
  { added := addedOf o1 o2, removed := removedOf o1 o2, modified := c.1, unchanged := c.2 }

end Comparison

mutual

/-- Well-formedness of an embedded Python object: every dict literal has
distinct keys (always true of an actual Python dict). -/
def JVal.wf : JVal → Bool
  | .null | .bool _ | .num _ | .str _ => true
  | .arr xs => JVal.wfList xs
  | .obj o => JVal.wfFields o

/-- All elements of an array are well-formed. -/
def JVal.wfList : List JVal → Bool
  | [] => true
  | x :: xs => JVal.wf x && JVal.wfList xs

/-- Keys are distinct and all values are well-formed. -/
def JVal.wfFields : List (String × JVal) → Bool
  | [] => true
  | (k, v) :: rest => !keysContain rest k && JVal.wf v && JVal.wfFields rest

end

namespace Comparison

/-- One model result as consumed by `detect_outliers`: only
`len(r.get("steps", []))` and `len(r.get("materials", []))` matter, so
steps and materials are kept as plain lists of strings. -/
structure MResult where
  steps : List String
  materials : List String

/-- Population mean, `sum(values) / len(values)`. -/
def listMean (xs : List ℚ) : ℚ := xs.sum / (xs.length : ℚ)

/-- Population variance around a given mean,
`sum((x - mean) ** 2 for x in values) / len(values)`; `_calculate_std`
is its square root. -/
def listVariance (xs : List ℚ) (m : ℚ) : ℚ :=
  (xs.map (fun x => (x - m) ^ 2)).sum / (xs.length : ℚ)

/-- The guard `std > 0` of `detect_outliers`: `_calculate_std` returns
`0.0` for fewer than two values and `sqrt(variance)` otherwise, which
is positive exactly when the variance is. -/
def stdPositive (xs : List ℚ) (m : ℚ) : Bool :=
  decide (2 ≤ xs.length) && decide (0 < listVariance xs m)

/-- The test `abs((count - mean) / std) > threshold` with
`std = sqrt(variance)`, expressed without square roots: for a
nonnegative threshold it is `(count - mean)^2 > threshold^2 * variance`
(and for a negative threshold it always holds, the z-score being
nonnegative).  `zAbove_iff` below proves this encoding equivalent to
the square-root form.  Only evaluated under `stdPositive`. -/
def zAbove (count m variance threshold : ℚ) : Bool :=
  decide (threshold < 0) || decide (threshold ^ 2 * variance < (count - m) ^ 2)

/-- `detect_outliers` of `comparison.py`.  The returned dict maps
`"step_count"` and `"material_count"` to lists of flag strings
`"Model {i+1}: ..."`; the embedding returns the two lists of flagged
1-based model numbers (the formatted message text carries no further
information).  An absent key corresponds to an empty list. -/
def detect_outliers (rs : List MResult) (threshold : ℚ) : List Nat × List Nat :=
  if rs.length < 3 then ([], [])
  else
    let stepCounts : List ℚ := rs.map (fun r => ((r.steps.length : ℚ)))
    let stepFlags :=
      if stepCounts.isEmpty then []
      else
        let m := listMean stepCounts
        let v := listVariance stepCounts m
        ((List.range stepCounts.length).filter
          (fun i => stdPositive stepCounts m && zAbove (stepCounts.getD i 0) m v threshold)).map
          (· + 1)
    let materialCounts : List ℚ := rs.map (fun r => ((r.materials.length : ℚ)))
    let materialFlags :=
      if materialCounts.isEmpty then []
      else
        let m := listMean materialCounts
        let v := listVariance materialCounts m
        ((List.range materialCounts.length).filter
          (fun i => stdPositive materialCounts m && zAbove (materialCounts.getD i 0) m v threshold)).map
          (· + 1)
    (stepFlags, materialFlags)

end Comparison

/-- Python `str.lower()`.  Lean lowercases the ASCII range; the inputs
at issue contain only ASCII letters and `°`, on which the two agree. -/
def lowerStr (s : String) : String := String.mk (s.toList.map Char.toLower)

/-- Python `needle in hay` substring containment. -/
def strContains (hay needle : String) : Bool :=
  let h := hay.toList
  let n := needle.toList
  (List.range (h.length + 1)).any (fun i => (h.drop i).take n.length == n)

/-- Python `str.split()` (no argument): split on whitespace runs,
discarding empty pieces.  `acc` holds the characters of the current
word, most recent first. -/
def wordsAux : List Char → List Char → List String
  | [], acc => if acc.isEmpty then [] else [String.mk acc.reverse]
  | c :: rest, acc =>
    if c.isWhitespace then
      if acc.isEmpty then wordsAux rest [] else String.mk acc.reverse :: wordsAux rest []
    else wordsAux rest (c :: acc)

/-- Python `str.split()` (no argument). -/
def pySplit (s : String) : List String := wordsAux s.toList []

/-- Python `str.strip()`: drop leading and trailing whitespace. -/
def pyStrip (s : String) : String :=
  String.mk (((s.toList.dropWhile Char.isWhitespace).reverse.dropWhile
    Char.isWhitespace).reverse)

namespace Halluc

/-- Length of the common run of equal characters at the heads of the two
lists (a match starting at these positions in `difflib`). -/
def runLen : List Char → List Char → Nat
  | a :: as, b :: bs => if a = b then runLen as bs + 1 else 0
  | _, _ => 0

/-- Best block of row `i`: the longest match starting at position `i`
of `a`, over the given candidate start positions in `b` (ascending),
ties resolved to the earliest `j`. -/
def bestRowAux (a b : List Char) (i : Nat) : List Nat → Nat × Nat × Nat
  | [] => (i, 0, 0)
  | j :: js =>
    let k := runLen (a.drop i) (b.drop j)
    let rest := bestRowAux a b i js
    if rest.2.2 > k then rest else (i, j, k)

/-- Combine per-row best blocks over the given start positions in `a`
(ascending): a later row wins only with a strictly longer match. -/
def bestAux (a b : List Char) : List Nat → Nat × Nat × Nat
  | [] => (0, 0, 0)
  | i :: is =>
    let cur := bestRowAux a b i (List.range b.length)
    let rest := bestAux a b is
    if rest.2.2 > cur.2.2 then rest else cur

/-- `SequenceMatcher.find_longest_match` (no junk: the inputs here are
short strings, so `difflib` autojunk never fires): the longest common
contiguous block as `(i, j, size)`, ties resolved to the smallest `i`,
then the smallest `j` — exactly the block on which the `difflib` scan,
which overwrites its running best only on strictly larger sizes, ends
up. -/
def bestBlock (a b : List Char) : Nat × Nat × Nat :=
  bestAux a b (List.range a.length)

/-- Total size of all matching blocks (`get_matching_blocks`): recurse
on both sides of the longest block.  The fuel argument only bounds the
recursion depth; every recursive call strictly shrinks the combined
length, so `length a + length b + 1` fuel never runs out. -/
def matchTotal : Nat → List Char → List Char → Nat
  | 0, _, _ => 0
  | fuel + 1, a, b =>
    let best := bestBlock a b
    let i := best.1
    let j := best.2.1
    let k := best.2.2
    if k = 0 then 0
    else k + matchTotal fuel (a.take i) (b.take j) +
      matchTotal fuel (a.drop (i + k)) (b.drop (j + k))

/-- `SequenceMatcher(None, a, b).ratio()`: `2 * M / (len(a) + len(b))`,
and `1.0` when both inputs are empty. -/
def similarityOf (a b : List Char) : ℚ :=
  let total := a.length + b.length
  if total = 0 then 1
  else (2 * (matchTotal (total + 1) a b : ℚ)) / (total : ℚ)

/-- Result dict of `check_citation_span_matching`. -/
structure SpanResult where
  matched : Bool
  confidence : ℚ
  method : String
deriving DecidableEq

/-- `check_citation_span_matching` of `hallucination.py`: exact
substring containment, then word-overlap ratio counting only words
longer than 3 characters, then `difflib` similarity against a source
window of twice the fact length. -/
def check_citation_span_matching (extractedFact sourceText : String) (threshold : ℚ) :
    SpanResult :=
  let factLower := pyStrip (lowerStr extractedFact)
  let sourceLower := lowerStr sourceText
  if strContains sourceLower factLower then ⟨true, 1, "exact"⟩
  else
    let factWords := pySplit factLower
    let fuzzy :=
      if factWords.length > 0 then
        let matchCount :=
          (factWords.filter (fun w => w.length > 3 && strContains sourceLower w)).length
        let overlap : ℚ := (matchCount : ℚ) / (factWords.length : ℚ)
        if overlap ≥ threshold then some (SpanResult.mk true overlap "fuzzy") else none
      else none
    match fuzzy with
    | some r => r
    | none =>
      let sim := similarityOf factLower.toList (sourceLower.toList.take (2 * factLower.length))
      if sim ≥ threshold then ⟨true, sim, "similarity"⟩
      else ⟨false, sim, "none"⟩

/-- A Python value reaching `check_plausibility` / `_extract_number`:
an int or a string (a float behaves like its integral part for every
check involved). -/
inductive PVal where
  | int (n : Int)
  | str (s : String)
deriving DecidableEq

/-- Python `str(value)` for the embedded values. -/
def PVal.pyStr : PVal → String
  | .int n => toString n
  | .str s => s

/-- Digit run to a number. -/
def digitsToNat (l : List Char) : ℚ :=
  l.foldl (fun acc c => acc * 10 + ((c.toNat - '0'.toNat : Nat) : ℚ)) 0

/-- Greedy parse of `\d+\.?\d*` from a list starting with a digit. -/
def parseNum (l : List Char) : ℚ :=
  let intDigits := l.takeWhile Char.isDigit
  let rest := l.dropWhile Char.isDigit
  let fracDigits :=
    match rest with
    | '.' :: r => r.takeWhile Char.isDigit
    | _ => []
  digitsToNat intDigits + digitsToNat fracDigits / 10 ^ fracDigits.length

/-- `re.search` with pattern `-?\d+\.?\d*` followed by `float(...)`: the
leftmost match starts at a digit, or at a `-` directly followed by a
digit. -/
def findNumber : List Char → Option ℚ
  | [] => none
  | c :: rest =>
    if c.isDigit then some (parseNum (c :: rest))
    else
      match rest with
      | d :: _ =>
        if c = '-' ∧ d.isDigit then some (-(parseNum rest))
        else findNumber rest
      | [] => none

/-- `_extract_number` of `hallucination.py`. -/
def extract_number : PVal → Option ℚ
  | .int n => some (n : ℚ)
  | .str s => findNumber s.toList

/-- Result dict of `check_plausibility`; `passes` models the Python key
`"plausible"`, which the source computes as `len(flags) == 0`. -/
structure Plaus where
  passes : Bool
  flags : List String
  confidence : ℚ

/-- The all-clear plausibility result. -/
def Plaus.ok : Plaus := ⟨true, [], 1⟩

/-- `check_plausibility` of `hallucination.py`: field-name keyed sanity
checks mirroring the `if`/`elif` chain of the source. -/
def check_plausibility (fieldName : String) (value : PVal) : Plaus :=
  if fieldName == "ph" || strContains (lowerStr fieldName) "ph" then
    match extract_number value with
    | some q => if ¬(0 ≤ q ∧ q ≤ 14) then ⟨false, ["pH out of range (0-14)"], 3/10⟩ else .ok
    | none => .ok
  else if strContains (lowerStr fieldName) "temperature" then
    match extract_number value with
    | some q =>
      if strContains value.pyStr "°C" || strContains (lowerStr value.pyStr) "celsius" then
        if ¬(-80 ≤ q ∧ q ≤ 200) then ⟨false, ["Temperature outside typical lab range"], 1/2⟩
        else .ok
      else if strContains value.pyStr "°F" || strContains (lowerStr value.pyStr) "fahrenheit" then
        if ¬(-112 ≤ q ∧ q ≤ 392) then ⟨false, ["Temperature outside typical lab range"], 1/2⟩
        else .ok
      else .ok
    | none => .ok
  else if strContains (lowerStr fieldName) "concentration" ||
      strContains (lowerStr fieldName) "molar" then
    match extract_number value with
    | some q => if q < 0 then ⟨false, ["Negative concentration"], 1/5⟩ else .ok
    | none => .ok
  else if strContains (lowerStr fieldName) "time" ||
      strContains (lowerStr fieldName) "duration" then
    match extract_number value with
    | some q => if q < 0 then ⟨false, ["Negative time"], 1/5⟩ else .ok
    | none => .ok
  else if strContains (lowerStr fieldName) "step_number" then
    match extract_number value with
    | some q => if q ≤ 0 ∨ q.den ≠ 1 then ⟨false, ["Invalid step number"], 3/10⟩ else .ok
    | none => .ok
  else .ok

/-- One step of an extraction: `description` and the optional
`step_number` used only to label the flag. -/
structure Step where
  description : String
  stepNumber : Option Int := none

/-- One condition of an extraction: `type` and `value` (the source
defaults both to `""` via `.get`). -/
structure Condition where
  ctype : String
  cvalue : PVal

/-- An extraction dict as consumed by `detect_hallucinations`: `none`
models an absent key (`"steps" in extracted_data` is a presence test,
while `_detect_outliers` uses `.get(..., [])`). -/
structure ExtractedData where
  steps : Option (List Step) := none
  conditions : Option (List Condition) := none
  materials : Option (List String) := none

/-- A hallucination flag dict.  `field` and `confidence` model keys
that some flag shapes omit (`flag.get("field", "unknown")`,
`flag.get("confidence", 0.5)`). -/
structure Flag where
  ftype : String
  field : Option String := none
  severity : String
  confidence : Option ℚ := none
  value : Option PVal := none
  details : List String := []

/-- `_detect_outliers` of `hallucination.py` (cross-model check): a
marker string per count field deviating from the sibling average by
more than 50% of that average; the numeric text of the source message
is dropped (it repeats the compared counts). -/
def cross_outliers (current : ExtractedData) (others : List ExtractedData) : List String :=
  let currentSteps : ℚ := (((current.steps.getD []).length : ℚ))
  let stepCounts := others.map (fun r => (((r.steps.getD []).length : ℚ)))
  let o1 :=
    if stepCounts.isEmpty then []
    else
      let avg := stepCounts.sum / (stepCounts.length : ℚ)
      if |currentSteps - avg| > avg * (1/2) then ["Step count"] else []
  let currentMaterials : ℚ := (((current.materials.getD []).length : ℚ))
  let materialCounts := others.map (fun r => (((r.materials.getD []).length : ℚ)))
  let o2 :=
    if materialCounts.isEmpty then []
    else
      let avg := materialCounts.sum / (materialCounts.length : ℚ)
      if |currentMaterials - avg| > avg * (1/2) then ["Material count"] else []
  o1 ++ o2

/-- Result dict of `detect_hallucinations`. -/
structure HallucResult where
  hasHallucinations : Bool
  flags : List Flag
  confidence : ℚ
  flaggedFields : List String

/-- The label `step_{step_number or "unknown"}_description`. -/
def stepFieldLabel (st : Step) : String :=
  "step_" ++ (match st.stepNumber with | some n => toString n | none => "unknown") ++
    "_description"

/-- The overall-confidence aggregation of `detect_hallucinations`:
`1.0` when no flags were raised, otherwise
`1.0 - min(avg, 0.8)` where `avg` is the mean of
`1.0 - flag.get("confidence", 0.5)` over all flags. -/
def overallConfidence (flags : List Flag) : ℚ :=
  if flags.isEmpty then 1
  else
    let avg := (flags.map (fun f => 1 - f.confidence.getD (1/2))).sum / (flags.length : ℚ)
    1 - min avg (4/5)

/-- The flag list assembled by `detect_hallucinations`: citation-span
checks over step descriptions, plausibility checks over conditions, and
the optional cross-model check. -/
def collected_flags (data : ExtractedData) (sourceText : String)
    (cross : Option (List ExtractedData)) : List Flag :=
  let citationFlags : List Flag :=
    match data.steps with
    | none => []
    | some steps =>
      steps.filterMap (fun st =>
        if st.description = "" then none
        else
          let m := check_citation_span_matching st.description sourceText (6/10)
          if m.matched then none
          else some { ftype := "citation_mismatch"
                      field := some (stepFieldLabel st)
                      severity := "medium"
                      confidence := some (1 - m.confidence) })
  let plausFlags : List Flag :=
    match data.conditions with
    | none => []
    | some conds =>
      conds.filterMap (fun c =>
        let p := check_plausibility c.ctype c.cvalue
        if p.passes then none
        else some { ftype := "implausible_value"
                    field := some ("condition_" ++ c.ctype)
                    severity := if p.confidence < 1/2 then "high" else "medium"
                    value := some c.cvalue
                    details := p.flags })
  let crossFlags : List Flag :=
    match cross with
    | some rs =>
      if rs.length ≥ 2 then
        let os := cross_outliers data rs
        if os.isEmpty then []
        else [{ ftype := "cross_model_outlier", severity := "medium", details := os }]
      else []
    | none => []
  citationFlags ++ plausFlags ++ crossFlags

/-- `detect_hallucinations` of `hallucination.py`: the assembled flags
together with the aggregate confidence and the flagged-field labels. -/
def detect_hallucinations (data : ExtractedData) (sourceText : String)
    (cross : Option (List ExtractedData) := none) : HallucResult :=
  let flags := collected_flags data sourceText cross
  { hasHallucinations := !flags.isEmpty, flags := flags,
    confidence := overallConfidence flags,
    flaggedFields := flags.map (fun f => f.field.getD "unknown") }

end Halluc

namespace Registry

/-- The `GenerationResult` dataclass of `model_registry.py`. -/
structure GenerationResult where
  text : String
  tokensIn : Int
  tokensOut : Int
  timeS : ℚ
  cost : ℚ
  modelId : String
  promptUsed : String
  status : String
  error : Option String := none
deriving DecidableEq

/-- `prompt[:100] + "..." if len(prompt) > 100 else prompt`. -/
def promptExcerpt (prompt : String) : String :=
  if prompt.length > 100 then prompt.take 100 ++ "..." else prompt

/-- Outcome of a Python call that the source may let escape: either a
value or an uncaught exception (named by its message). -/
inductive PyOutcome (α : Type) where
  | ok (a : α)
  | raised (exn : String)
deriving DecidableEq

/-- Parsed body of a successful chat-completion response: the assistant
text and the usage counters the adapter reads out of the JSON. -/
structure ChatData where
  content : String
  promptTokens : Int
  completionTokens : Int
deriving DecidableEq

/-- What the HTTP request inside an adapter produced, as seen by the
`except` clauses: a parsed success body, `requests.exceptions.Timeout`,
`requests.exceptions.HTTPError` (with the response status when a
response exists, and the error-message string the handler extracts from
the response body), or any other exception. -/
inductive HttpResult where
  | ok (data : ChatData)
  | timeout
  | httpError (status : Option Nat) (errorDetail : String)
  | exn (msg : String)
deriving DecidableEq

/-- An apostrophe, used verbatim inside source error messages. -/
def apos : String := String.singleton (Char.ofNat 39)

/-- `AIMLApiProvider._estimate_cost`: first price-table key contained in
the lowered model id wins, in the insertion order of the table, else the
default rate.  (As in the source, `"gpt-4"` shadows `"gpt-4-turbo"`.) -/
def estimate_cost (modelId : String) (tokensIn tokensOut : Int) : ℚ :=
  let m := lowerStr modelId
  if strContains m "gpt-4" then (tokensIn : ℚ) / 1000000 * 30 + (tokensOut : ℚ) / 1000000 * 60
  else if strContains m "gpt-4-turbo" then
    (tokensIn : ℚ) / 1000000 * 10 + (tokensOut : ℚ) / 1000000 * 30
  else if strContains m "gpt-3.5-turbo" then
    (tokensIn : ℚ) / 1000000 * (1/2) + (tokensOut : ℚ) / 1000000 * (3/2)
  else if strContains m "claude-3-opus" then
    (tokensIn : ℚ) / 1000000 * 15 + (tokensOut : ℚ) / 1000000 * 75
  else if strContains m "claude-3-sonnet" then
    (tokensIn : ℚ) / 1000000 * 3 + (tokensOut : ℚ) / 1000000 * 15
  else if strContains m "claude-3-haiku" then
    (tokensIn : ℚ) / 1000000 * (1/4) + (tokensOut : ℚ) / 1000000 * (5/4)
  else if strContains m "gemini-pro" then
    (tokensIn : ℚ) / 1000000 * (1/2) + (tokensOut : ℚ) / 1000000 * (3/2)
  else ((tokensIn + tokensOut : Int) : ℚ) / 1000000 * 1

/-- The model-family suffix of the AIML timeout message (the numeric
elapsed-seconds text of the source message is elided). -/
def timeoutSuggestion (modelId : String) : String :=
  if strContains (lowerStr modelId) "gpt-5" then
    ". GPT-5 models can be slow. Try: openai/gpt-5-mini-2025-08-07 (faster) or openai/gpt-4o (more reliable)"
  else if strContains (lowerStr modelId) "gpt-4" then
    ". Try: openai/gpt-4o-mini (faster) or reduce max_tokens"
  else ". The model may be overloaded. Try again or use a faster model."

/-- A failure-shaped result shared by every AIML error branch. -/
def aimlErrorResult (modelId prompt : String) (elapsed : ℚ) (status : String)
    (error : Option String) : GenerationResult :=
  { text := "", tokensIn := 0, tokensOut := 0, timeS := elapsed, cost := 0,
    modelId := modelId, promptUsed := promptExcerpt prompt, status := status, error := error }

/-- The alternative model ids suggested for a 400 model-validation
error. -/
def similarModels (modelId : String) : List String :=
  if strContains (lowerStr modelId) "gpt-5" then
    ["openai/gpt-5-2025-08-07", "openai/gpt-5-mini-2025-08-07",
     "openai/gpt-5-nano-2025-08-07", "openai/gpt-5-chat-latest"]
  else if strContains (lowerStr modelId) "gpt-4" then
    ["openai/gpt-4o", "openai/gpt-4-turbo", "openai/gpt-4"]
  else []

/-- The `except requests.exceptions.HTTPError` handler of
`AIMLApiProvider.generate`.  `error_msg` is assigned only in the 401
and 400 branches; the 404 branch appends to it and the fall-through
`return` reads it, so every status outside `{400, 401}` (including a
missing response) raises `UnboundLocalError` out of `generate`. -/
def aimlHttpErrorResult (apiKey modelId prompt : String) (status : Option Nat)
    (errorDetail : String) (elapsed : ℚ) : PyOutcome GenerationResult :=
  match status with
  | some 401 =>
    let msg :=
      if apiKey = "" then "Unauthorized: API key not configured. Set AIML_API_KEY in backend/.env"
      else "Unauthorized (HTTP 401): Invalid API key. The AIML_API_KEY in backend/.env may be incorrect, expired, or has extra spaces. Verify the key at https://docs.aimlapi.com/"
    .ok (aimlErrorResult modelId prompt elapsed "failed" (some msg))
  | some 400 =>
    let base := "HTTP 400: " ++ errorDetail
    let msg :=
      if strContains errorDetail "Invalid discriminator value" ||
          strContains errorDetail "fieldErrors" then
        let sims := similarModels modelId
        if sims.isEmpty then
          base ++ " | Model " ++ apos ++ modelId ++ apos ++
            " is not available. Check valid models at https://docs.aimlapi.com/"
        else
          base ++ " | Model " ++ apos ++ modelId ++ apos ++ " is not available. Try: " ++
            String.intercalate ", " (sims.take 3)
      else base ++ " | Request format may be invalid. Check https://docs.aimlapi.com/ for correct format."
    .ok (aimlErrorResult modelId prompt elapsed "failed" (some msg))
  | _ => .raised "UnboundLocalError: local variable error_msg referenced before assignment"

/-- `AIMLApiProvider.generate`: the pure function of the request
outcome and the elapsed time.  An empty API key raises `ValueError`
before the request, caught by the `except ValueError` clause of the adapter itself. -/
def aiml_generate (apiKey modelId prompt : String) (outcome : HttpResult) (elapsed : ℚ) :
    PyOutcome GenerationResult :=
  if apiKey = "" then
    .ok (aimlErrorResult modelId prompt elapsed "failed"
      (some "AIML_API_KEY not configured. Set it in backend/.env"))
  else
    match outcome with
    | .ok d =>
      .ok { text := d.content, tokensIn := d.promptTokens, tokensOut := d.completionTokens,
            timeS := elapsed, cost := estimate_cost modelId d.promptTokens d.completionTokens,
            modelId := modelId, promptUsed := promptExcerpt prompt, status := "success" }
    | .timeout =>
      .ok (aimlErrorResult modelId prompt elapsed "timeout"
        (some ("Request timed out" ++ timeoutSuggestion modelId)))
    | .httpError st detail => aimlHttpErrorResult apiKey modelId prompt st detail elapsed
    | .exn msg =>
      .ok (aimlErrorResult modelId prompt elapsed "failed" (some ("Unexpected error: " ++ msg)))

/-- `OllamaProvider.generate`: the success branch estimates tokens as
`int(len(words) * 1.3)`; the timeout branch returns `status="timeout"`
with no `error` field, and `raise_for_status` errors as well as any
other exception land in the blanket handler, which returns
`status="failed"` also with no `error` field. -/
def ollama_generate (modelId prompt : String) (outcome : HttpResult) (elapsed : ℚ) :
    PyOutcome GenerationResult :=
  match outcome with
  | .ok d =>
    .ok { text := d.content,
          tokensIn := pyInt (((pySplit prompt).length : ℚ) * (13/10)),
          tokensOut := pyInt (((pySplit d.content).length : ℚ) * (13/10)),
          timeS := elapsed, cost := 0, modelId := modelId,
          promptUsed := promptExcerpt prompt, status := "success" }
  | .timeout =>
    .ok { text := "", tokensIn := 0, tokensOut := 0, timeS := elapsed, cost := 0,
          modelId := modelId, promptUsed := promptExcerpt prompt, status := "timeout" }
  | .httpError _ _ =>
    .ok { text := "", tokensIn := 0, tokensOut := 0, timeS := elapsed, cost := 0,
          modelId := modelId, promptUsed := promptExcerpt prompt, status := "failed" }
  | .exn _ =>
    .ok { text := "", tokensIn := 0, tokensOut := 0, timeS := elapsed, cost := 0,
          modelId := modelId, promptUsed := promptExcerpt prompt, status := "failed" }

/-- A provider as the registry sees it: the model ids its
`list_models` reports, and its `generate`, abstracted as the outcome of
each attempt (`attempt ↦` what `provider.generate` returns or raises on
that attempt). -/
structure Prov where
  models : List String
  gen : Nat → PyOutcome GenerationResult

/-- `ModelRegistry._get_provider_for_model`: first provider whose model
list contains the id. -/
def get_provider_for_model (providers : List Prov) (modelId : String) : Option Prov :=
  providers.find? (fun p => p.models.contains modelId)

/-- The synthetic failed result the registry builds itself (no `error`
field). -/
def syntheticFailed (modelId prompt : String) : GenerationResult :=
  { text := "", tokensIn := 0, tokensOut := 0, timeS := 0, cost := 0, modelId := modelId,
    promptUsed := promptExcerpt prompt, status := "failed" }

/-- The `for attempt in range(max_retries)` loop of
`ModelRegistry.generate`, returning the result together with the list
of back-off sleeps performed (`2 ** attempt` seconds each).  The fuel
argument counts the remaining loop iterations, so it starts at
`maxRetries` with `attempt = 0`; exhausted fuel is the fall-through to
the synthetic failed result after the loop. -/
def registry_loop (gen : Nat → PyOutcome GenerationResult) (modelId prompt : String)
    (maxRetries : Nat) : Nat → Nat → GenerationResult × List Nat
  | 0, _ => (syntheticFailed modelId prompt, [])
  | fuel + 1, attempt =>
    match gen attempt with
    | .ok r =>
      if r.status = "success" then (r, [])
      else if r.status = "timeout" ∧ attempt + 1 < maxRetries then
        let tail := registry_loop gen modelId prompt maxRetries fuel (attempt + 1)
        (tail.1, 2 ^ attempt :: tail.2)
      else (r, [])
    | .raised _ =>
      if attempt + 1 < maxRetries then
        let tail := registry_loop gen modelId prompt maxRetries fuel (attempt + 1)
        (tail.1, 2 ^ attempt :: tail.2)
      else registry_loop gen modelId prompt maxRetries fuel (attempt + 1)

/-- `ModelRegistry.generate`: resolve the owning provider (returning
the synthetic failed result when none lists the id), then run the retry
loop.  The second component is the sleep trace. -/
def registry_generate (providers : List Prov) (modelId prompt : String) (maxRetries : Nat) :
    GenerationResult × List Nat :=
  match get_provider_for_model providers modelId with
  | none => (syntheticFailed modelId prompt, [])
  | some p => registry_loop p.gen modelId prompt maxRetries maxRetries 0

/-- A concrete timeout result, used to instantiate the retry theorems. -/
def sampleTimeoutResult : GenerationResult :=
  { text := "", tokensIn := 0, tokensOut := 0, timeS := 30, cost := 0, modelId := "m1",
    promptUsed := "p", status := "timeout", error := some "Request timed out" }

/-- A concrete success result, used to instantiate the retry theorems. -/
def sampleSuccessResult : GenerationResult :=
  { text := "ok", tokensIn := 10, tokensOut := 5, timeS := 2, cost := 0, modelId := "m1",
    promptUsed := "p", status := "success" }

/-- A provider owning `"m1"` that times out twice and then succeeds. -/
def sampleProvider : Prov :=
  ⟨["m1"], fun n => .ok (if n < 2 then sampleTimeoutResult else sampleSuccessResult)⟩

/-- A provider owning only the Perplexity Sonar ids. -/
def sampleSonarProvider : Prov :=
  ⟨["sonar", "sonar-pro"], fun _ => .ok sampleTimeoutResult⟩

end Registry

namespace Jobs

/-- A concrete job sitting in the terminal `cancelled` state. -/
def sampleCancelledJob : Job :=
  { jobId := "job-1", taskType := "comparison", status := .cancelled, createdAt := 0,
    updatedAt := 1, progress := 25, totalItems := 4, completedItems := 1, cancelled := true }

end Jobs

/-! Theorems.  Claim theorems are named `claim_*`; everything else is a
shared helper lemma. -/

namespace Jobs

/-- C1 counterexample: a freshly created job that is cancelled (hence in
a terminal state) is moved back to `completed` by a subsequent
`complete_job` call, so terminal states are not final. -/
theorem claim_C1_counterexample :
    ((cancel_job (some (create_job "j" "comparison" 1 0)) 1).1.map Job.status =
      some .cancelled)
    ∧ ((complete_job (cancel_job (some (create_job "j" "comparison" 1 0)) 1).1 [] 2).map
        Job.status = some .completed) := by
  exact ⟨rfl, rfl⟩

/-- C1 amended: terminal statuses are mutually exclusive (a job carries
exactly one status) but only `cancel_job` treats them as final: it
leaves a terminal job untouched and reports `false`, while
`complete_job`, `fail_job` and `start_job` overwrite the status of a
terminal job unconditionally, and `update_job_progress` promotes any
job (`j2`, of arbitrary current status) with `completed_items >=
total_items` to `completed`. -/
theorem claim_C1_amended (j j2 : Job) (r : List (String × JVal))
    (ro : Option (List (String × JVal))) (e : String) (now : ℚ) (c : Int)
    (h : j.status.isTerminal = true) (hc : j2.totalItems ≤ c) :
    cancel_job (some j) now = (some j, false)
    ∧ (complete_job (some j) r now).map Job.status = some .completed
    ∧ (fail_job (some j) e now).map Job.status = some .failed
    ∧ (start_job (some j) now).map Job.status = some .running
    ∧ (update_job_progress (some j2) c ro now).map Job.status = some .completed := by
  refine ⟨?_, rfl, rfl, rfl, ?_⟩
  · have hp : ¬(j.status = .pending ∨ j.status = .running) := by
      rcases j with ⟨_, _, s, _⟩
      cases s <;> simp_all [JobStatus.isTerminal]
    simp [cancel_job, hp]
  · have hge : c ≥ j2.totalItems := hc
    rcases ro with _ | rv
    · simp [update_job_progress, hge]
    · by_cases hrv : rv.isEmpty <;> simp [update_job_progress, hge, hrv]

/-- C1 amended, witnessed on a concrete cancelled job: `cancel_job`
leaves it alone while the other four operations move it out of its
terminal state (`update_job_progress` with 5 of its 4 items reported
complete promotes it straight to `completed`). -/
theorem claim_C1_amended_witness :
    cancel_job (some sampleCancelledJob) 7 = (some sampleCancelledJob, false)
    ∧ (complete_job (some sampleCancelledJob) [] 7).map Job.status = some .completed
    ∧ (fail_job (some sampleCancelledJob) "boom" 7).map Job.status = some .failed
    ∧ (start_job (some sampleCancelledJob) 7).map Job.status = some .running
    ∧ (update_job_progress (some sampleCancelledJob) 5 none 7).map Job.status =
        some .completed :=
  claim_C1_amended sampleCancelledJob sampleCancelledJob [] none "boom" 7 5 rfl (by decide)

/-- C8: `cancel_job` returns `true` and marks the job cancelled exactly
when the job exists and its status is `pending` or `running`; on a job
already terminal it returns `false` and leaves the stored job
unchanged, and on an unknown job it returns `false`. -/
theorem claim_C8_cancel_job (j : Job) (now : ℚ) :
    cancel_job none now = (none, false)
    ∧ ((cancel_job (some j) now).2 = true ↔ (j.status = .pending ∨ j.status = .running))
    ∧ (if j.status = .pending ∨ j.status = .running then
        cancel_job (some j) now =
          (some { j with status := .cancelled, cancelled := true, updatedAt := now }, true)
      else cancel_job (some j) now = (some j, false)) := by
  refine ⟨rfl, ?_, ?_⟩ <;> by_cases hp : j.status = .pending ∨ j.status = .running <;>
    simp [cancel_job, hp]

/-- C10: on a job whose `total_items` is zero or negative,
`update_job_progress` with any nonnegative `completed_items` avoids the
division (progress is set to 0) and, since `completed_items >=
total_items` then holds, immediately transitions the job to
`completed`. -/
theorem claim_C10_zero_total (j : Job) (c : Int) (r : Option (List (String × JVal)))
    (now : ℚ) (ht : j.totalItems ≤ 0) (hc : 0 ≤ c) :
    (update_job_progress (some j) c r now).map Job.progress = some 0
    ∧ (update_job_progress (some j) c r now).map Job.status = some .completed := by
  have hgt : ¬j.totalItems > 0 := by omega
  have hge : c ≥ j.totalItems := le_trans ht hc
  rcases r with _ | rv
  · simp [update_job_progress, hgt, hge]
  · by_cases hrv : rv.isEmpty <;> simp [update_job_progress, hgt, hge, hrv]

/-- C10, witnessed on a job created with `total_items = 0`. -/
theorem claim_C10_zero_total_witness :
    (update_job_progress (some (create_job "j" "t" 0 0)) 5 none 3).map Job.progress = some 0
    ∧ (update_job_progress (some (create_job "j" "t" 0 0)) 5 none 3).map Job.status =
      some .completed :=
  claim_C10_zero_total (create_job "j" "t" 0 0) 5 none 3 (by decide) (by decide)

end Jobs

mutual

/-- Structural equality is reflexive. -/
theorem JVal.beq_refl : ∀ v : JVal, JVal.beq v v = true
  | .null => rfl
  | .bool b => by simp [JVal.beq]
  | .num q => by simp [JVal.beq]
  | .str s => by simp [JVal.beq]
  | .arr xs => by simp [JVal.beq, JVal.beqList_refl xs]
  | .obj o => by simp [JVal.beq, JVal.beqFields_refl o]

/-- Elementwise equality is reflexive. -/
theorem JVal.beqList_refl : ∀ l : List JVal, JVal.beqList l l = true
  | [] => rfl
  | x :: xs => by simp [JVal.beqList, JVal.beq_refl x, JVal.beqList_refl xs]

/-- Entrywise equality is reflexive. -/
theorem JVal.beqFields_refl : ∀ o : List (String × JVal), JVal.beqFields o o = true
  | [] => rfl
  | (k, v) :: rest => by simp [JVal.beqFields, JVal.beq_refl v, JVal.beqFields_refl rest]

end

/-- An object contains every key of its entries. -/
theorem keysContain_of_mem {o : List (String × JVal)} {k : String} {v : JVal}
    (h : (k, v) ∈ o) : keysContain o k = true := by
  simp only [keysContain, List.any_eq_true]
  exact ⟨(k, v), h, by simp⟩

/-- Diffing an object against itself adds nothing. -/
theorem Comparison.addedOf_self (o : List (String × JVal)) : Comparison.addedOf o o = [] := by
  rw [Comparison.addedOf, List.filter_eq_nil_iff]
  intro p hp
  simp [keysContain_of_mem (v := p.2) (by simpa using hp)]

/-- Diffing an object against itself removes nothing. -/
theorem Comparison.removedOf_self (o : List (String × JVal)) :
    Comparison.removedOf o o = [] := by
  rw [Comparison.removedOf, List.filter_eq_nil_iff]
  intro p hp
  simp [keysContain_of_mem (v := p.2) (by simpa using hp)]

/-- In an object with distinct keys, looking up the key of an entry
yields the value of that entry. -/
theorem lookupVal_self : ∀ {o : List (String × JVal)}, JVal.wfFields o = true →
    ∀ {k : String} {v : JVal}, (k, v) ∈ o → lookupVal o k = some v := by
  intro o
  induction o with
  | nil => intro _ k v h; cases h
  | cons p rest ih =>
    obtain ⟨k0, v0⟩ := p
    intro hwf k v h
    simp only [JVal.wfFields, Bool.and_eq_true, Bool.not_eq_true'] at hwf
    obtain ⟨⟨hnk, _⟩, hrest⟩ := hwf
    rcases List.mem_cons.mp h with heq | hmem
    · obtain ⟨rfl, rfl⟩ := Prod.mk.injEq .. ▸ heq
      simp [lookupVal, List.lookup]
    · have hne : k ≠ k0 := by
        intro hEq
        subst hEq
        rw [keysContain_of_mem hmem] at hnk
        simp at hnk
      have hkf : (k == k0) = false := beq_eq_false_iff_ne.mpr hne
      simp only [lookupVal, List.lookup, hkf]
      simpa [lookupVal] using ih hrest hmem

/-- Every value of a well-formed object is well-formed. -/
theorem wf_of_mem : ∀ {o : List (String × JVal)}, JVal.wfFields o = true →
    ∀ {k : String} {v : JVal}, (k, v) ∈ o → JVal.wf v = true := by
  intro o
  induction o with
  | nil => intro _ k v h; cases h
  | cons p rest ih =>
    obtain ⟨k0, v0⟩ := p
    intro hwf k v h
    simp only [JVal.wfFields, Bool.and_eq_true, Bool.not_eq_true'] at hwf
    obtain ⟨⟨_, hv0⟩, hrest⟩ := hwf
    rcases List.mem_cons.mp h with h | h
    · obtain ⟨rfl, rfl⟩ := Prod.mk.injEq .. ▸ h
      exact hv0
    · exact ih hrest h

/-- A member of a list is strictly smaller than the list. -/
theorem sizeOf_snd_lt_of_mem {o : List (String × JVal)} {k : String} {v : JVal}
    (h : (k, v) ∈ o) : sizeOf v < sizeOf o := by
  have h1 := List.sizeOf_lt_of_mem h
  have h2 : sizeOf (k, v) = 1 + sizeOf k + sizeOf v := rfl
  omega

/-- Classifying a well-formed value against itself reports no change,
and walking the common keys of a well-formed object against itself
marks every entry unchanged. -/
theorem classify_self_strong :
    ∀ n : Nat, ∀ v : JVal, sizeOf v ≤ n → JVal.wf v = true → Comparison.classify v v = none := by
  intro n
  induction n using Nat.strong_induction_on with
  | _ n ih =>
    intro v hsize hwf
    match v with
    | .null => rfl
    | .bool b => simp [Comparison.classify, JVal.beq]
    | .num q => simp [Comparison.classify, JVal.beq]
    | .str s => simp [Comparison.classify, JVal.beq]
    | .arr xs => simp [Comparison.classify, JVal.beqList_refl xs]
    | .obj d =>
      have hd : JVal.wfFields d = true := by simpa [JVal.wf] using hwf
      have hcommon : ∀ rest : List (String × JVal),
          (∀ q ∈ rest, q ∈ d) → Comparison.commonOf rest d = ([], rest) := by
        intro rest
        induction rest with
        | nil => intro _; simp [Comparison.commonOf]
        | cons q tl ihq =>
          obtain ⟨k, v1⟩ := q
          intro hsub
          have hmem : (k, v1) ∈ d := hsub _ (List.mem_cons_self _ _)
          have hv1 : sizeOf v1 < n := by
            have hlt : sizeOf v1 < sizeOf d := sizeOf_snd_lt_of_mem hmem
            have hobj : sizeOf (JVal.obj d) = 1 + sizeOf d := by simp
            omega
          have hclass : Comparison.classify v1 v1 = none :=
            ih (sizeOf v1) hv1 v1 le_rfl (wf_of_mem hd hmem)
          have hlook : lookupVal d k = some v1 := lookupVal_self hd hmem
          have htl := ihq (fun q hq => hsub q (List.mem_cons_of_mem _ hq))
          simp [Comparison.commonOf, hlook, hclass, htl]
      have hcd := hcommon d (fun _ hq => hq)
      simp [Comparison.classify, hcd, Comparison.addedOf_self, Comparison.removedOf_self]

/-- C9: `compute_json_diff(x, x)` on any object (arbitrary nesting
depth, including the empty object) yields empty `added`, `removed` and
`modified` sections: every common key is classified unchanged.  The
hypothesis states that every dict literal inside `x` has distinct keys,
which is automatic for a Python dict. -/
theorem claim_C9_diff_self (o : List (String × JVal)) (h : JVal.wfFields o = true) :
    (Comparison.compute_json_diff o o).added = []
    ∧ (Comparison.compute_json_diff o o).removed = []
    ∧ (Comparison.compute_json_diff o o).modified = []
    ∧ (Comparison.compute_json_diff o o).unchanged = o := by
  have hcommon : ∀ rest : List (String × JVal),
      (∀ q ∈ rest, q ∈ o) → Comparison.commonOf rest o = ([], rest) := by
    intro rest
    induction rest with
    | nil => intro _; simp [Comparison.commonOf]
    | cons q tl ihq =>
      obtain ⟨k, v1⟩ := q
      intro hsub
      have hmem : (k, v1) ∈ o := hsub _ (List.mem_cons_self _ _)
      have hclass : Comparison.classify v1 v1 = none :=
        classify_self_strong (sizeOf v1) v1 le_rfl (wf_of_mem h hmem)
      have hlook : lookupVal o k = some v1 := lookupVal_self h hmem
      have htl := ihq (fun q hq => hsub q (List.mem_cons_of_mem _ hq))
      simp [Comparison.commonOf, hlook, hclass, htl]
  have hco := hcommon o (fun _ hq => hq)
  refine ⟨?_, ?_, ?_, ?_⟩ <;>
    simp [Comparison.compute_json_diff, Comparison.addedOf_self, Comparison.removedOf_self, hco]

/-- C9, witnessed on a nested object. -/
theorem claim_C9_diff_self_witness :
    (Comparison.compute_json_diff
        [("a", JVal.obj [("b", JVal.num 1), ("c", JVal.str "x")]),
         ("d", JVal.arr [JVal.str "y", JVal.null])]
        [("a", JVal.obj [("b", JVal.num 1), ("c", JVal.str "x")]),
         ("d", JVal.arr [JVal.str "y", JVal.null])]).added = []
    ∧ (Comparison.compute_json_diff
        [("a", JVal.obj [("b", JVal.num 1), ("c", JVal.str "x")]),
         ("d", JVal.arr [JVal.str "y", JVal.null])]
        [("a", JVal.obj [("b", JVal.num 1), ("c", JVal.str "x")]),
         ("d", JVal.arr [JVal.str "y", JVal.null])]).removed = []
    ∧ (Comparison.compute_json_diff
        [("a", JVal.obj [("b", JVal.num 1), ("c", JVal.str "x")]),
         ("d", JVal.arr [JVal.str "y", JVal.null])]
        [("a", JVal.obj [("b", JVal.num 1), ("c", JVal.str "x")]),
         ("d", JVal.arr [JVal.str "y", JVal.null])]).modified = []
    ∧ (Comparison.compute_json_diff
        [("a", JVal.obj [("b", JVal.num 1), ("c", JVal.str "x")]),
         ("d", JVal.arr [JVal.str "y", JVal.null])]
        [("a", JVal.obj [("b", JVal.num 1), ("c", JVal.str "x")]),
         ("d", JVal.arr [JVal.str "y", JVal.null])]).unchanged =
      [("a", JVal.obj [("b", JVal.num 1), ("c", JVal.str "x")]),
       ("d", JVal.arr [JVal.str "y", JVal.null])] :=
  claim_C9_diff_self
    [("a", JVal.obj [("b", JVal.num 1), ("c", JVal.str "x")]),
     ("d", JVal.arr [JVal.str "y", JVal.null])] (by decide)

/-- The square-free encoding `zAbove` agrees with the z-score
test `abs((count - mean) / sqrt(variance)) > threshold` whenever the
variance is positive (the only situation in which the source evaluates
it). -/
theorem zAbove_iff (c m v t : ℚ) (hv : 0 < v) :
    Comparison.zAbove c m v t = true ↔
      (t : ℝ) < |(c : ℝ) - (m : ℝ)| / Real.sqrt (v : ℝ) := by
  have hv' : (0 : ℝ) < (v : ℝ) := by exact_mod_cast hv
  have hs : (0 : ℝ) < Real.sqrt (v : ℝ) := Real.sqrt_pos.mpr hv'
  rw [lt_div_iff₀ hs]
  simp only [Comparison.zAbove, Bool.or_eq_true, decide_eq_true_eq]
  rcases lt_or_le t 0 with ht | ht
  · have hts : (t : ℝ) * Real.sqrt (v : ℝ) < 0 :=
      mul_neg_of_neg_of_pos (by exact_mod_cast ht) hs
    constructor
    · intro _
      exact lt_of_lt_of_le hts (abs_nonneg _)
    · intro _
      exact Or.inl ht
  · have ht' : (0 : ℝ) ≤ (t : ℝ) := by exact_mod_cast ht
    have hts : (0 : ℝ) ≤ (t : ℝ) * Real.sqrt (v : ℝ) := mul_nonneg ht' hs.le
    have hsq : ((t : ℝ) * Real.sqrt (v : ℝ)) ^ 2 = (t : ℝ) ^ 2 * (v : ℝ) := by
      rw [mul_pow, Real.sq_sqrt hv'.le]
    constructor
    · rintro (h | h)
      · exact absurd h (not_lt.mpr ht)
      · have hq : (t : ℝ) ^ 2 * (v : ℝ) < ((c : ℝ) - (m : ℝ)) ^ 2 := by exact_mod_cast h
        by_contra hc
        push_neg at hc
        have h2 := pow_le_pow_left₀ (abs_nonneg _) hc 2
        rw [sq_abs, hsq] at h2
        exact absurd hq (not_lt.mpr h2)
    · intro h
      right
      have h2 : ((t : ℝ) * Real.sqrt (v : ℝ)) ^ 2 < |(c : ℝ) - (m : ℝ)| ^ 2 :=
        pow_lt_pow_left₀ h hts (by norm_num)
      rw [sq_abs, hsq] at h2
      exact_mod_cast h2

section C5

unseal Rat.inv Rat.mul Rat.add Rat.sub Rat.ofScientific

/-- C5 counterexample: for step counts `{5, 5, 50}` the z-score of the
50-step result is `30 / sqrt(450) = sqrt 2 < 2`, so at the default
threshold 2.0 `detect_outliers` flags nothing at all — the supposedly
"unambiguous z > 2" input of the spec is in fact below the threshold. -/
theorem claim_C5_counterexample :
    Comparison.detect_outliers
      [⟨List.replicate 5 "s", []⟩, ⟨List.replicate 5 "s", []⟩, ⟨List.replicate 50 "s", []⟩]
      2 = ([], []) := by
  decide

/-- C5 amended: with step counts `{5, 5, 50}` the z-score of the 50-step
result is `sqrt 2 ≈ 1.414`, so at the default threshold 2.0 nothing is
flagged; at threshold 1.4, for instance, exactly the 50-step result
(model 3) is flagged under `step_count`. -/
theorem claim_C5_amended :
    Comparison.detect_outliers
      [⟨List.replicate 5 "s", []⟩, ⟨List.replicate 5 "s", []⟩, ⟨List.replicate 50 "s", []⟩]
      (7/5) = ([3], [])
    ∧ Comparison.detect_outliers
      [⟨List.replicate 5 "s", []⟩, ⟨List.replicate 5 "s", []⟩, ⟨List.replicate 50 "s", []⟩]
      2 = ([], []) := by
  constructor <;> decide

end C5

section C6

unseal Rat.inv Rat.mul Rat.add Rat.sub Rat.ofScientific

set_option maxRecDepth 100000

/-- C6 counterexample: on the very scenario of the spec the function returns
`matched = false`.  The numeric tokens `"37"` and `"2"` cannot
contribute to the fuzzy tier, which only counts words longer than 3
characters: of the four fact words only `"hours"` occurs in the source,
so the overlap is 1/4 < 0.6, and the final similarity tier scores only
1/6 against the 32-character source window. -/
theorem claim_C6_counterexample :
    (Halluc.check_citation_span_matching "37°C for 2 hours"
      "...incubated at 37 degrees Celsius for two hours..." (6/10)).matched = false := by
  decide

/-- C6 amended: `checkCitationSpan("37°C for 2 hours",
"...incubated at 37 degrees Celsius for two hours...")` at the default
threshold 0.6 returns `matched = false` with method `"none"` and
confidence 1/6: the exact tier fails, the fuzzy tier ignores the
shared numeric tokens `"37"` and `"2"` (words of at most 3 characters
are not counted, leaving overlap 1/4 < 0.6), and the
sequence-similarity tier scores 1/6 < 0.6. -/
theorem claim_C6_amended :
    Halluc.check_citation_span_matching "37°C for 2 hours"
      "...incubated at 37 degrees Celsius for two hours..." (6/10) =
      ⟨false, 1/6, "none"⟩ := by
  decide

end C6

/-- C7: for every extraction, source text and optional sibling results,
the overall confidence of `detect_hallucinations` is 1 when no flags
are raised, and `1 - min(mean(1 - flag confidence, default 0.5), 0.8)`
otherwise — in particular it never drops below 0.2, however many flags
there are. -/
theorem claim_C7_confidence (data : Halluc.ExtractedData) (src : String)
    (cross : Option (List Halluc.ExtractedData)) :
    (if (Halluc.detect_hallucinations data src cross).flags.isEmpty then
      (Halluc.detect_hallucinations data src cross).confidence = 1
    else
      (Halluc.detect_hallucinations data src cross).confidence =
        1 - min (((Halluc.detect_hallucinations data src cross).flags.map
              (fun f => 1 - f.confidence.getD (1/2))).sum /
            (((Halluc.detect_hallucinations data src cross).flags.length : ℚ))) (4/5))
    ∧ 1/5 ≤ (Halluc.detect_hallucinations data src cross).confidence := by
  have h1 : (Halluc.detect_hallucinations data src cross).flags =
      Halluc.collected_flags data src cross := rfl
  have h2 : (Halluc.detect_hallucinations data src cross).confidence =
      Halluc.overallConfidence (Halluc.collected_flags data src cross) := rfl
  rw [h1, h2]
  generalize Halluc.collected_flags data src cross = F
  by_cases hF : F.isEmpty
  · refine ⟨?_, ?_⟩
    · rw [if_pos hF]
      unfold Halluc.overallConfidence
      rw [if_pos hF]
    · unfold Halluc.overallConfidence
      rw [if_pos hF]
      norm_num
  · refine ⟨?_, ?_⟩
    · rw [if_neg hF]
      unfold Halluc.overallConfidence
      rw [if_neg hF]
    · unfold Halluc.overallConfidence
      rw [if_neg hF]
      have hmin := min_le_right
        ((F.map (fun f => 1 - f.confidence.getD (1/2))).sum / ((F.length : ℚ))) ((4:ℚ)/5)
      linarith

/-- C2: the claim fails on the code.  In the HTTPError
handler of `AIMLApiProvider.generate` `error_msg` is assigned only for statuses 401 and
400, so an HTTP 500 reply reaches `return GenerationResult(...,
error=error_msg)` — and a 404 reply reaches `error_msg += ...` — with
`error_msg` unbound, raising `UnboundLocalError` out of `generate`.
`OllamaProvider.generate` additionally returns its timeout and failure
results with no error message at all (`error = None`). -/
theorem claim_C2_adapter_throws :
    Registry.aiml_generate "key" "gpt-4o" "a prompt"
      (.httpError (some 500) "Internal Server Error") 1 =
      .raised "UnboundLocalError: local variable error_msg referenced before assignment"
    ∧ Registry.aiml_generate "key" "gpt-4o" "a prompt" (.httpError (some 404) "Not Found") 1 =
      .raised "UnboundLocalError: local variable error_msg referenced before assignment"
    ∧ Registry.ollama_generate "llama3" "a prompt" .timeout 2 =
      .ok { text := "", tokensIn := 0, tokensOut := 0, timeS := 2, cost := 0,
            modelId := "llama3", promptUsed := "a prompt", status := "timeout", error := none }
    ∧ Registry.ollama_generate "llama3" "a prompt" (.exn "connection refused") 2 =
      .ok { text := "", tokensIn := 0, tokensOut := 0, timeS := 2, cost := 0,
            modelId := "llama3", promptUsed := "a prompt", status := "failed", error := none } :=
  ⟨rfl, rfl, rfl, rfl⟩

/-- Stepping the retry loop once when the attempt returns a result
(rather than raising). -/
theorem registry_loop_step (gen : Nat → Registry.PyOutcome Registry.GenerationResult)
    (modelId prompt : String) (maxRetries fuel attempt : Nat)
    (r : Registry.GenerationResult) (h : gen attempt = .ok r) :
    Registry.registry_loop gen modelId prompt maxRetries (fuel + 1) attempt =
      (if r.status = "success" then (r, [])
      else if r.status = "timeout" ∧ attempt + 1 < maxRetries then
        ((Registry.registry_loop gen modelId prompt maxRetries fuel (attempt + 1)).1,
          2 ^ attempt ::
            (Registry.registry_loop gen modelId prompt maxRetries fuel (attempt + 1)).2)
      else (r, [])) := by
  rw [Registry.registry_loop, h]

/-- C3: the retry policy of `ModelRegistry.generate` with the default
`max_retries = 3`, for a model id owned by provider `p` whose attempts
return results `r0, r1, r2`: a success is returned immediately with no
sleeps; a timeout is retried after sleeping `2^attempt` seconds (1s
after attempt 0, 2s after attempt 1); any other status (`failed`)
returns immediately; and when every attempt times out the last
result `r2` of the loop is returned as-is after the two back-off sleeps. -/
theorem claim_C3_retry_policy (providers : List Registry.Prov) (p : Registry.Prov)
    (modelId prompt : String) (r0 r1 r2 : Registry.GenerationResult)
    (hp : Registry.get_provider_for_model providers modelId = some p)
    (h0 : p.gen 0 = .ok r0) (h1 : p.gen 1 = .ok r1) (h2 : p.gen 2 = .ok r2) :
    if r0.status = "success" then
      Registry.registry_generate providers modelId prompt 3 = (r0, [])
    else if r0.status = "timeout" then
      (if r1.status = "success" then
        Registry.registry_generate providers modelId prompt 3 = (r1, [1])
      else if r1.status = "timeout" then
        Registry.registry_generate providers modelId prompt 3 = (r2, [1, 2])
      else Registry.registry_generate providers modelId prompt 3 = (r1, [1]))
    else Registry.registry_generate providers modelId prompt 3 = (r0, []) := by
  have hgen : Registry.registry_generate providers modelId prompt 3 =
      Registry.registry_loop p.gen modelId prompt 3 3 0 := by
    rw [Registry.registry_generate, hp]
  have e0 := registry_loop_step p.gen modelId prompt 3 2 0 r0 h0
  have e1 := registry_loop_step p.gen modelId prompt 3 1 1 r1 h1
  have e2 := registry_loop_step p.gen modelId prompt 3 0 2 r2 h2
  by_cases hs0 : r0.status = "success"
  · rw [if_pos hs0, hgen, e0, if_pos hs0]
  · rw [if_neg hs0]
    by_cases ht0 : r0.status = "timeout"
    · rw [if_pos ht0]
      have hc0 : r0.status = "timeout" ∧ 0 + 1 < 3 := ⟨ht0, by norm_num⟩
      by_cases hs1 : r1.status = "success"
      · rw [if_pos hs1, hgen, e0, if_neg hs0, if_pos hc0, e1, if_pos hs1]
        rfl
      · rw [if_neg hs1]
        by_cases ht1 : r1.status = "timeout"
        · rw [if_pos ht1, hgen, e0, if_neg hs0, if_pos hc0, e1, if_neg hs1,
            if_pos (⟨ht1, by norm_num⟩ : r1.status = "timeout" ∧ 1 + 1 < 3), e2]
          by_cases hs2 : r2.status = "success"
          · rw [if_pos hs2]
            rfl
          · rw [if_neg hs2, if_neg (by simp : ¬(r2.status = "timeout" ∧ 2 + 1 < 3))]
            rfl
        · rw [if_neg ht1, hgen, e0, if_neg hs0, if_pos hc0, e1, if_neg hs1,
            if_neg (fun hc => ht1 hc.1)]
          rfl
    · rw [if_neg ht0, hgen, e0, if_neg hs0, if_neg (fun hc => ht0 hc.1)]

/-- C3, witnessed on a provider that times out twice and succeeds on
the third attempt: the registry sleeps 1s and 2s and returns the
success result. -/
theorem claim_C3_retry_policy_witness :
    if Registry.sampleTimeoutResult.status = "success" then
      Registry.registry_generate [Registry.sampleProvider] "m1" "p" 3 =
        (Registry.sampleTimeoutResult, [])
    else if Registry.sampleTimeoutResult.status = "timeout" then
      (if Registry.sampleTimeoutResult.status = "success" then
        Registry.registry_generate [Registry.sampleProvider] "m1" "p" 3 =
          (Registry.sampleTimeoutResult, [1])
      else if Registry.sampleTimeoutResult.status = "timeout" then
        Registry.registry_generate [Registry.sampleProvider] "m1" "p" 3 =
          (Registry.sampleSuccessResult, [1, 2])
      else Registry.registry_generate [Registry.sampleProvider] "m1" "p" 3 =
        (Registry.sampleTimeoutResult, [1]))
    else Registry.registry_generate [Registry.sampleProvider] "m1" "p" 3 =
      (Registry.sampleTimeoutResult, []) :=
  claim_C3_retry_policy [Registry.sampleProvider] Registry.sampleProvider "m1" "p"
    Registry.sampleTimeoutResult Registry.sampleTimeoutResult Registry.sampleSuccessResult
    rfl rfl rfl rfl

/-- C4: when the model list of no provider contains the requested id,
`ModelRegistry.generate` returns its synthetic failed result
immediately: no attempt, no retry, and an empty back-off sleep trace. -/
theorem claim_C4_unknown_model (providers : List Registry.Prov) (modelId prompt : String)
    (maxRetries : Nat) (h : ∀ p ∈ providers, modelId ∉ p.models) :
    Registry.registry_generate providers modelId prompt maxRetries =
      (Registry.syntheticFailed modelId prompt, []) := by
  have hnone : Registry.get_provider_for_model providers modelId = none := by
    rw [Registry.get_provider_for_model, List.find?_eq_none]
    intro p hp
    simpa using h p hp
  rw [Registry.registry_generate, hnone]

/-- C4, witnessed on the `"unknown-model-id"` scenario of the spec against a
provider owning only the Sonar models. -/
theorem claim_C4_unknown_model_witness :
    Registry.registry_generate [Registry.sampleSonarProvider] "unknown-model-id" "p" 3 =
      (Registry.syntheticFailed "unknown-model-id" "p", []) :=
  claim_C4_unknown_model [Registry.sampleSonarProvider] "unknown-model-id" "p" 3
    (by intro p hp; rw [List.mem_singleton.mp hp]; decide)
